import Mathlib

/-!
Shallow embedding of `led_color.py`: conversion of an 8-bit sRGB color into
a mixing ratio and per-channel luminous intensities for three fixed LED
primaries.  Channel values are naturals 0-255; all color arithmetic is over
`ℝ`.  Python float division by zero either raises or, through numpy,
produces non-finite values; the embedding uses Lean's total division, and
theorems about degenerate denominators are read with that convention in
mind (stated next to each theorem concerned).
-/

noncomputable section

namespace LedColor

/-- CIE chromaticity coordinates of the red LED primary (module constant,
line 31 of the source). -/
def PRIMARY_RED_X : ℝ := 0.700606061

/-- Source line 32. -/
def PRIMARY_RED_Y : ℝ := 0.299300699

/-- Source line 33. -/
def PRIMARY_GREEN_X : ℝ := 0.154722061

/-- Source line 34. -/
def PRIMARY_GREEN_Y : ℝ := 0.805863545

/-- Source line 35. -/
def PRIMARY_BLUE_X : ℝ := 0.109594324

/-- Source line 36. -/
def PRIMARY_BLUE_Y : ℝ := 0.08684251

/-- Typical luminous intensity of the red LED in candela (source line 39). -/
def RED_LUMINOUS_INTENSITY : ℝ := 0.105

/-- Source line 40. -/
def GREEN_LUMINOUS_INTENSITY : ℝ := 0.330

/-- Source line 41. -/
def BLUE_LUMINOUS_INTENSITY : ℝ := 0.200

/-- Source line 43: `MAX_8_BIT = 0xFF`. -/
def MAX_8_BIT : ℝ := 255

/-- Inverse companding constants, source lines 46-51. -/
def COMPAND_V_MIN : ℝ := 0.04045

/-- Source line 47. -/
def COMPAND_A : ℝ := 12.92

/-- Source line 48. -/
def COMPAND_B : ℝ := 0.055

/-- Source line 49. -/
def COMPAND_C : ℝ := 1.055

/-- Source line 50. -/
def COMPAND_POW : ℝ := 2.4

/-- Source line 51. -/
def COMPAND_MAGIC_NUM : ℝ := 100

/-- Inverse companding of a single color channel (source lines 62-70).
The exponentiation is real exponentiation (`Real.rpow`), modelling Python's
`pow` on floats. -/
def inverse_companding (v : ℝ) : ℝ :=
  if v ≤ COMPAND_V_MIN then v / COMPAND_A
  else ((v + COMPAND_B) / COMPAND_C) ^ COMPAND_POW

/-- One channel of `rgb_to_xyz`'s preprocessing (source lines 94-98):
normalize by `MAX_8_BIT`, inverse-compand, scale by `COMPAND_MAGIC_NUM`. -/
def decode_channel (c : ℕ) : ℝ :=
  inverse_companding ((c : ℝ) / MAX_8_BIT) * COMPAND_MAGIC_NUM

/-- The `numpy.dot(RGB_TO_XYZ, rgb_arr)` step of `rgb_to_xyz` (source
lines 55-59 and 101): the fixed sRGB-to-XYZ matrix applied to a linear
column vector. -/
def dot_RGB_TO_XYZ (r g b : ℝ) : ℝ × ℝ × ℝ :=
  (0.4124564 * r + 0.3575761 * g + 0.1804375 * b,
   0.2126729 * r + 0.7151522 * g + 0.0721750 * b,
   0.0193339 * r + 0.1191920 * g + 0.9503041 * b)

/-- Convert sRGB 0-255 channel values to CIE 1931 XYZ (source lines 73-101). -/
def rgb_to_xyz (red green blue : ℕ) : ℝ × ℝ × ℝ :=
  dot_RGB_TO_XYZ (decode_channel red) (decode_channel green) (decode_channel blue)

/-- Convert CIE 1931 XYZ to CIE 1931 xyY (source lines 104-116):
`x = X/(X+Y+Z)`, `y = Y/(X+Y+Z)`, luminance `Y`.  The source performs the
divisions unconditionally; so does this embedding (total real division). -/
def xyz_to_xyy (xyz : ℝ × ℝ × ℝ) : ℝ × ℝ × ℝ :=
  (xyz.1 / (xyz.1 + xyz.2.1 + xyz.2.2),
   xyz.2.1 / (xyz.1 + xyz.2.1 + xyz.2.2),
   xyz.2.1)

/-- Ratio of mixtures formula `R = -(y2/y1) * (y1-y3) / (y2-y3)`
(source lines 119-126). -/
def calc_ratio_of_mixtures (y1 y2 y3 : ℝ) : ℝ :=
  ((-1 * (y2 / y1)) * (y1 - y3)) / (y2 - y3)

/-- The six fixed primary chromaticities the solver reads (the source holds
them in module-level constants; bundling them lets the same formulas run on
the production LED primaries and on the documented reference primaries). -/
structure Primaries where
  red_x : ℝ
  red_y : ℝ
  green_x : ℝ
  green_y : ℝ
  blue_x : ℝ
  blue_y : ℝ

/-- The production primaries, source lines 31-36. -/
def ledPrimaries : Primaries :=
  ⟨PRIMARY_RED_X, PRIMARY_RED_Y, PRIMARY_GREEN_X, PRIMARY_GREEN_Y,
   PRIMARY_BLUE_X, PRIMARY_BLUE_Y⟩

/-- The reference primaries documented in the module docstring
(source lines 9-15), used by the documented white-point test case. -/
def referencePrimaries : Primaries :=
  ⟨0.67, 0.33, 0.21, 0.71, 0.14, 0.08⟩

/-- Slope of the line between the red and blue primaries
(source lines 136-137). -/
def slope_rb (P : Primaries) : ℝ :=
  (P.red_y - P.blue_y) / (P.red_x - P.blue_x)

/-- Intercept of the red-blue line (source line 138). -/
def const_rb (P : Primaries) : ℝ :=
  P.blue_y - slope_rb P * P.blue_x

/-- Slope of the line between the green primary and the target color
(source lines 141-142). -/
def slope_gd (P : Primaries) (x y : ℝ) : ℝ :=
  (P.green_y - y) / (P.green_x - x)

/-- Intercept of the green-target line, computed from the green primary's
own coordinates (source line 145, the active variant). -/
def const_gd (P : Primaries) (x y : ℝ) : ℝ :=
  P.green_y - slope_gd P x y * P.green_x

/-- The commented-out variant of the intercept, source line 144:
`const_gd = PRIMARY_GREEN_Y - (slope_gd * cie_xyy[0])` — the green
primary's y paired with the target's x. -/
def const_gd_line144 (P : Primaries) (x y : ℝ) : ℝ :=
  P.green_y - slope_gd P x y * x

/-- x of the interception point of the two lines (source line 148). -/
def purple_x (P : Primaries) (x y : ℝ) : ℝ :=
  (const_rb P - const_gd P x y) / (slope_gd P x y - slope_rb P)

/-- y of the interception point (source line 149). -/
def purple_y (P : Primaries) (x y : ℝ) : ℝ :=
  slope_rb P * purple_x P x y + const_rb P

/-- Blue to red ratio to create the purple point (source line 153). -/
def ratio_br (P : Primaries) (x y : ℝ) : ℝ :=
  calc_ratio_of_mixtures P.blue_y P.red_y (purple_y P x y)

/-- Purple to green ratio to create the target color (source lines 155-156). -/
def ratio_pg (P : Primaries) (x y : ℝ) : ℝ :=
  calc_ratio_of_mixtures (purple_y P x y) P.green_y y

/-- Fraction of the red ratio producing the purple color (source line 159). -/
def red_fraction (P : Primaries) (x y : ℝ) : ℝ :=
  ratio_br P x y / (ratio_br P x y + 1)

/-- Fraction of the blue ratio producing the purple color (source line 161). -/
def blue_fraction (P : Primaries) (x y : ℝ) : ℝ :=
  1 / (ratio_br P x y + 1)

/-- RGB color mixing ratio by the center of gravity method (source
lines 129-168).  Only components 0 and 1 of the xyY triple are read,
exactly as the source reads `cie_xyy.item(0)` and `cie_xyy.item(1)`. -/
def xyy_to_rgb_mixing_ratio (P : Primaries) (cie_xyy : ℝ × ℝ × ℝ) : ℝ × ℝ × ℝ :=
  (red_fraction P cie_xyy.1 cie_xyy.2.1 / blue_fraction P cie_xyy.1 cie_xyy.2.1,
   ratio_pg P cie_xyy.1 cie_xyy.2.1 / blue_fraction P cie_xyy.1 cie_xyy.2.1,
   blue_fraction P cie_xyy.1 cie_xyy.2.1 / blue_fraction P cie_xyy.1 cie_xyy.2.1)

/-- The solver as it would read with the commented-out source line 144
active in place of line 145.  Intermediate quantities follow below. -/
def purple_x_line144 (P : Primaries) (x y : ℝ) : ℝ :=
  (const_rb P - const_gd_line144 P x y) / (slope_gd P x y - slope_rb P)

/-- Source line 149 with the line-144 intercept variant. -/
def purple_y_line144 (P : Primaries) (x y : ℝ) : ℝ :=
  slope_rb P * purple_x_line144 P x y + const_rb P

/-- Source line 153 with the line-144 intercept variant. -/
def ratio_br_line144 (P : Primaries) (x y : ℝ) : ℝ :=
  calc_ratio_of_mixtures P.blue_y P.red_y (purple_y_line144 P x y)

/-- Source lines 155-156 with the line-144 intercept variant. -/
def ratio_pg_line144 (P : Primaries) (x y : ℝ) : ℝ :=
  calc_ratio_of_mixtures (purple_y_line144 P x y) P.green_y y

/-- Source line 159 with the line-144 intercept variant. -/
def red_fraction_line144 (P : Primaries) (x y : ℝ) : ℝ :=
  ratio_br_line144 P x y / (ratio_br_line144 P x y + 1)

/-- Source line 161 with the line-144 intercept variant. -/
def blue_fraction_line144 (P : Primaries) (x y : ℝ) : ℝ :=
  1 / (ratio_br_line144 P x y + 1)

/-- Source lines 129-168 with the line-144 intercept variant. -/
def xyy_to_rgb_mixing_ratio_line144 (P : Primaries) (cie_xyy : ℝ × ℝ × ℝ) :
    ℝ × ℝ × ℝ :=
  (red_fraction_line144 P cie_xyy.1 cie_xyy.2.1 /
     blue_fraction_line144 P cie_xyy.1 cie_xyy.2.1,
   ratio_pg_line144 P cie_xyy.1 cie_xyy.2.1 /
     blue_fraction_line144 P cie_xyy.1 cie_xyy.2.1,
   blue_fraction_line144 P cie_xyy.1 cie_xyy.2.1 /
     blue_fraction_line144 P cie_xyy.1 cie_xyy.2.1)

/-- Luminous intensities creating the target color (source lines 203-219):
percentages of the mixing ratio, the red channel pinned to its rated
intensity, green and blue derived proportionally.  Returns the pair
(`rgb_percentages`, `rgb_intensities`) the source builds on lines 218-219
(the source only prints them; printing is I/O outside the embedding). -/
def choose_luminous_intensities (mr : ℝ × ℝ × ℝ) : (ℝ × ℝ × ℝ) × (ℝ × ℝ × ℝ) :=
  ((mr.1 / (mr.1 + mr.2.1 + mr.2.2),
    mr.2.1 / (mr.1 + mr.2.1 + mr.2.2),
    mr.2.2 / (mr.1 + mr.2.1 + mr.2.2)),
   (RED_LUMINOUS_INTENSITY,
    (RED_LUMINOUS_INTENSITY / (mr.1 / (mr.1 + mr.2.1 + mr.2.2))) *
      (mr.2.1 / (mr.1 + mr.2.1 + mr.2.2)),
    (RED_LUMINOUS_INTENSITY / (mr.1 / (mr.1 + mr.2.1 + mr.2.2))) *
      (mr.2.2 / (mr.1 + mr.2.1 + mr.2.2))))

/-- The one failure `main` can report (source lines 240-245): the target is
an imaginary color for the configured primaries. -/
inductive MixError where
  | imaginaryColor

/-- The gamut gate of `main` (source lines 240-247): if any component of
the solved mixing ratio is strictly negative, raise; otherwise hand the
ratio to `choose_luminous_intensities`. -/
def main_check (mr : ℝ × ℝ × ℝ) :
    Except MixError ((ℝ × ℝ × ℝ) × (ℝ × ℝ × ℝ)) :=
  if mr.1 < 0 ∨ mr.2.1 < 0 ∨ mr.2.2 < 0 then Except.error MixError.imaginaryColor
  else Except.ok (choose_luminous_intensities mr)

/-! ## Theorems -/

/-- C6: for every 8-bit channel value `c` in [0,255], the channel decoder
returns `100 * (v / 12.92)` when `v = c/255` is at most 0.04045, and
`100 * ((v + 0.055) / 1.055) ^ 2.4` otherwise. -/
theorem C6_channel_decoder (c : ℕ) (hc : c ≤ 255) :
    decode_channel c =
      if (c : ℝ) / 255 ≤ 0.04045 then 100 * (((c : ℝ) / 255) / 12.92)
      else 100 * ((((c : ℝ) / 255) + 0.055) / 1.055) ^ (2.4 : ℝ) := by
  simp only [decode_channel, inverse_companding, MAX_8_BIT, COMPAND_V_MIN,
    COMPAND_A, COMPAND_B, COMPAND_C, COMPAND_POW, COMPAND_MAGIC_NUM]
  split_ifs with h
  · ring
  · rw [mul_comm]

/-- Witness for C6 at the concrete channel value 128. -/
theorem C6_channel_decoder_witness :
    (128 : ℕ) ≤ 255 ∧
      decode_channel 128 =
        if (128 : ℝ) / 255 ≤ 0.04045 then 100 * (((128 : ℝ) / 255) / 12.92)
        else 100 * ((((128 : ℝ) / 255) + 0.055) / 1.055) ^ (2.4 : ℝ) :=
  ⟨by norm_num, by
    have h := C6_channel_decoder 128 (by norm_num)
    simpa using h⟩

/-- C7: whenever none of the solver's denominators vanishes, the blue
component of the returned mixing ratio equals exactly 1. -/
theorem C7_blue_component_one (P : Primaries) (cie : ℝ × ℝ × ℝ)
    (h1 : P.red_x - P.blue_x ≠ 0)
    (h2 : P.green_x - cie.1 ≠ 0)
    (h3 : slope_gd P cie.1 cie.2.1 - slope_rb P ≠ 0)
    (h4 : P.blue_y ≠ 0)
    (h5 : P.red_y - purple_y P cie.1 cie.2.1 ≠ 0)
    (h6 : purple_y P cie.1 cie.2.1 ≠ 0)
    (h7 : P.green_y - cie.2.1 ≠ 0)
    (h8 : ratio_br P cie.1 cie.2.1 + 1 ≠ 0) :
    (xyy_to_rgb_mixing_ratio P cie).2.2 = 1 := by
  have hbf : blue_fraction P cie.1 cie.2.1 ≠ 0 := by
    simp only [blue_fraction]
    exact one_div_ne_zero h8
  simp only [xyy_to_rgb_mixing_ratio]
  exact div_self hbf

/-- Witness for C7: the documented reference primaries with the D65 white
point as target satisfy every denominator hypothesis, and the blue
component there is 1. -/
theorem C7_blue_component_one_witness :
    (xyy_to_rgb_mixing_ratio referencePrimaries (0.3128, 0.3292, 1)).2.2 = 1 :=
  C7_blue_component_one referencePrimaries (0.3128, 0.3292, 1)
    (by norm_num [referencePrimaries])
    (by norm_num [referencePrimaries])
    (by norm_num [slope_gd, slope_rb, referencePrimaries])
    (by norm_num [referencePrimaries])
    (by norm_num [purple_y, purple_x, const_gd, slope_gd, const_rb, slope_rb,
      referencePrimaries])
    (by norm_num [purple_y, purple_x, const_gd, slope_gd, const_rb, slope_rb,
      referencePrimaries])
    (by norm_num [referencePrimaries])
    (by norm_num [ratio_br, calc_ratio_of_mixtures, purple_y, purple_x,
      const_gd, slope_gd, const_rb, slope_rb, referencePrimaries])

/-- C3: for every solved mixing ratio with a strictly negative component the
gamut gate of `main` reports the imaginary-color error and does not hand the
ratio to intensity calibration; with all components nonnegative no error is
raised and calibration proceeds on that ratio. -/
theorem C3_gamut_gate (mr : ℝ × ℝ × ℝ) :
    ((mr.1 < 0 ∨ mr.2.1 < 0 ∨ mr.2.2 < 0) →
      main_check mr = Except.error MixError.imaginaryColor) ∧
    ((0 ≤ mr.1 ∧ 0 ≤ mr.2.1 ∧ 0 ≤ mr.2.2) →
      main_check mr = Except.ok (choose_luminous_intensities mr)) := by
  constructor
  · intro h
    simp only [main_check, if_pos h]
  · rintro ⟨ha, hb, hc⟩
    have h : ¬(mr.1 < 0 ∨ mr.2.1 < 0 ∨ mr.2.2 < 0) := by
      push_neg
      exact ⟨ha, hb, hc⟩
    simp only [main_check, if_neg h]

/-- Witness for C3 at two concrete ratios, one on each side of the gate. -/
theorem C3_gamut_gate_witness :
    main_check (-1, 1, 1) = Except.error MixError.imaginaryColor ∧
    main_check (1, 1, 1) = Except.ok (choose_luminous_intensities (1, 1, 1)) :=
  ⟨(C3_gamut_gate (-1, 1, 1)).1 (Or.inl (by norm_num)),
   (C3_gamut_gate (1, 1, 1)).2 ⟨by norm_num, by norm_num, by norm_num⟩⟩

/-- C9: for a mixing ratio with nonzero sum and nonzero red component, the
calibrator pins red to its rated intensity and derives green and blue with
the formulas `(intensity_red / p_red) * p_i`; the derived intensities are
exactly proportional to the ratio (no clamping to a rated maximum). -/
theorem C9_intensity_calibration (mr : ℝ × ℝ × ℝ)
    (hs : mr.1 + mr.2.1 + mr.2.2 ≠ 0) (hr : mr.1 ≠ 0) :
    choose_luminous_intensities mr =
      ((mr.1 / (mr.1 + mr.2.1 + mr.2.2),
        mr.2.1 / (mr.1 + mr.2.1 + mr.2.2),
        mr.2.2 / (mr.1 + mr.2.1 + mr.2.2)),
       (RED_LUMINOUS_INTENSITY,
        (RED_LUMINOUS_INTENSITY / (mr.1 / (mr.1 + mr.2.1 + mr.2.2))) *
          (mr.2.1 / (mr.1 + mr.2.1 + mr.2.2)),
        (RED_LUMINOUS_INTENSITY / (mr.1 / (mr.1 + mr.2.1 + mr.2.2))) *
          (mr.2.2 / (mr.1 + mr.2.1 + mr.2.2)))) ∧
    (choose_luminous_intensities mr).2.2.1 =
      RED_LUMINOUS_INTENSITY * (mr.2.1 / mr.1) ∧
    (choose_luminous_intensities mr).2.2.2 =
      RED_LUMINOUS_INTENSITY * (mr.2.2 / mr.1) := by
  refine ⟨rfl, ?_, ?_⟩
  · simp only [choose_luminous_intensities]
    field_simp
    ring
  · simp only [choose_luminous_intensities]
    field_simp
    ring

/-- Witness for C9 at the ratio (1, 2, 3): red is pinned to 0.105 cd and
the derived blue intensity 0.315 cd exceeds the blue rating 0.200 cd,
no clamping occurring. -/
theorem C9_intensity_calibration_witness :
    choose_luminous_intensities (1, 2, 3) =
      (((1 : ℝ) / (1 + 2 + 3), 2 / (1 + 2 + 3), 3 / (1 + 2 + 3)),
       (RED_LUMINOUS_INTENSITY,
        (RED_LUMINOUS_INTENSITY / ((1 : ℝ) / (1 + 2 + 3))) * (2 / (1 + 2 + 3)),
        (RED_LUMINOUS_INTENSITY / ((1 : ℝ) / (1 + 2 + 3))) * (3 / (1 + 2 + 3)))) ∧
    (choose_luminous_intensities ((1 : ℝ), 2, 3)).2.2.1 =
      RED_LUMINOUS_INTENSITY * (2 / 1) ∧
    (choose_luminous_intensities ((1 : ℝ), 2, 3)).2.2.2 =
      RED_LUMINOUS_INTENSITY * (3 / 1) := by
  have h := C9_intensity_calibration (1, 2, 3) (by norm_num) (by norm_num)
  simpa using h

/-- Helper: the mixing-ratio solver reads only the first two components of
its xyY argument. -/
theorem mixing_ratio_depends_on_xy (P : Primaries) (u v : ℝ × ℝ × ℝ)
    (hx : u.1 = v.1) (hy : u.2.1 = v.2.1) :
    xyy_to_rgb_mixing_ratio P u = xyy_to_rgb_mixing_ratio P v := by
  simp only [xyy_to_rgb_mixing_ratio, hx, hy]

/-- C10 counterexample: at the production primaries and the target
(0.3, 0.4) — whose x differs from the green primary's x — the commented-out
line-144 intercept does not equal the active line-145 intercept, and the
two solver variants return different output. -/
theorem C10_conventions_counterexample :
    (0.3 : ℝ) ≠ ledPrimaries.green_x ∧
    const_gd_line144 ledPrimaries 0.3 0.4 ≠ const_gd ledPrimaries 0.3 0.4 ∧
    xyy_to_rgb_mixing_ratio_line144 ledPrimaries (0.3, 0.4, 1) ≠
      xyy_to_rgb_mixing_ratio ledPrimaries (0.3, 0.4, 1) := by
  refine ⟨by norm_num [ledPrimaries, PRIMARY_GREEN_X], ?_, ?_⟩
  · norm_num [const_gd_line144, const_gd, slope_gd, ledPrimaries,
      PRIMARY_GREEN_X, PRIMARY_GREEN_Y]
  · intro heq
    have h1 := congrArg Prod.fst heq
    norm_num [xyy_to_rgb_mixing_ratio_line144, xyy_to_rgb_mixing_ratio,
      red_fraction_line144, red_fraction, blue_fraction_line144,
      blue_fraction, ratio_pg_line144, ratio_pg, ratio_br_line144, ratio_br,
      purple_y_line144, purple_y, purple_x_line144, purple_x,
      const_gd_line144, const_gd, slope_gd, const_rb, slope_rb,
      calc_ratio_of_mixtures, ledPrimaries, PRIMARY_RED_X, PRIMARY_RED_Y,
      PRIMARY_GREEN_X, PRIMARY_GREEN_Y, PRIMARY_BLUE_X, PRIMARY_BLUE_Y] at h1

/-- C10 as amended: for every target (x, y) with x different from the green
primary's x, the active intercept (source line 145, from the green
primary's coordinates) does equal the point-slope value `y - slope * x`
taken at the target; but the commented-out source line 144 actually
computes `green_y - slope * x`, which differs from the active intercept by
exactly `green_y - y`, so the code's two conventions disagree at every
target with `y ≠ green_y`. -/
theorem C10_line144_intercept_relation (P : Primaries) (x y : ℝ)
    (h : x ≠ P.green_x) :
    const_gd P x y = y - slope_gd P x y * x ∧
    const_gd_line144 P x y - const_gd P x y = P.green_y - y ∧
    (y ≠ P.green_y → const_gd_line144 P x y ≠ const_gd P x y) := by
  have hne : P.green_x - x ≠ 0 := sub_ne_zero.mpr (Ne.symm h)
  have h1 : const_gd P x y = y - slope_gd P x y * x := by
    simp only [const_gd, slope_gd]
    field_simp
    ring
  have h2 : const_gd_line144 P x y - const_gd P x y = P.green_y - y := by
    simp only [const_gd_line144, const_gd, slope_gd]
    field_simp
    ring
  refine ⟨h1, h2, fun hy heq => hy ?_⟩
  rw [heq, sub_self] at h2
  exact (sub_eq_zero.mp h2.symm).symm

/-- Witness for the amended C10 at the production primaries and the target
(0.3, 0.4). -/
theorem C10_line144_intercept_relation_witness :
    const_gd ledPrimaries 0.3 0.4 =
      0.4 - slope_gd ledPrimaries 0.3 0.4 * 0.3 ∧
    const_gd_line144 ledPrimaries 0.3 0.4 - const_gd ledPrimaries 0.3 0.4 =
      ledPrimaries.green_y - 0.4 ∧
    ((0.4 : ℝ) ≠ ledPrimaries.green_y →
      const_gd_line144 ledPrimaries 0.3 0.4 ≠ const_gd ledPrimaries 0.3 0.4) :=
  C10_line144_intercept_relation ledPrimaries 0.3 0.4
    (by norm_num [ledPrimaries, PRIMARY_GREEN_X])

/-- C8: scaling a linear-light RGB triple by a positive constant before the
tristimulus transform leaves the chromaticity (x, y) unchanged, hence also
the mixing ratio for any primaries, while the luminance Y scales by the
constant. -/
theorem C8_scale_invariance (r g b k : ℝ) (hk : 0 < k) :
    (xyz_to_xyy (dot_RGB_TO_XYZ (k * r) (k * g) (k * b))).1 =
      (xyz_to_xyy (dot_RGB_TO_XYZ r g b)).1 ∧
    (xyz_to_xyy (dot_RGB_TO_XYZ (k * r) (k * g) (k * b))).2.1 =
      (xyz_to_xyy (dot_RGB_TO_XYZ r g b)).2.1 ∧
    (xyz_to_xyy (dot_RGB_TO_XYZ (k * r) (k * g) (k * b))).2.2 =
      k * (xyz_to_xyy (dot_RGB_TO_XYZ r g b)).2.2 ∧
    ∀ P : Primaries,
      xyy_to_rgb_mixing_ratio P (xyz_to_xyy (dot_RGB_TO_XYZ (k * r) (k * g) (k * b))) =
        xyy_to_rgb_mixing_ratio P (xyz_to_xyy (dot_RGB_TO_XYZ r g b)) := by
  have hk0 : k ≠ 0 := ne_of_gt hk
  have hX : (dot_RGB_TO_XYZ (k * r) (k * g) (k * b)).1 =
      k * (dot_RGB_TO_XYZ r g b).1 := by
    simp only [dot_RGB_TO_XYZ]
    ring
  have hY : (dot_RGB_TO_XYZ (k * r) (k * g) (k * b)).2.1 =
      k * (dot_RGB_TO_XYZ r g b).2.1 := by
    simp only [dot_RGB_TO_XYZ]
    ring
  have hZ : (dot_RGB_TO_XYZ (k * r) (k * g) (k * b)).2.2 =
      k * (dot_RGB_TO_XYZ r g b).2.2 := by
    simp only [dot_RGB_TO_XYZ]
    ring
  have hx : (xyz_to_xyy (dot_RGB_TO_XYZ (k * r) (k * g) (k * b))).1 =
      (xyz_to_xyy (dot_RGB_TO_XYZ r g b)).1 := by
    simp only [xyz_to_xyy, hX, hY, hZ, ← mul_add]
    exact mul_div_mul_left _ _ hk0
  have hy : (xyz_to_xyy (dot_RGB_TO_XYZ (k * r) (k * g) (k * b))).2.1 =
      (xyz_to_xyy (dot_RGB_TO_XYZ r g b)).2.1 := by
    simp only [xyz_to_xyy, hX, hY, hZ, ← mul_add]
    exact mul_div_mul_left _ _ hk0
  refine ⟨hx, hy, ?_, ?_⟩
  · simp only [xyz_to_xyy, hY]
  · intro P
    exact mixing_ratio_depends_on_xy P _ _ hx hy

/-- Witness for C8 at the linear triple (1, 2, 3) scaled by 2. -/
theorem C8_scale_invariance_witness :
    (xyz_to_xyy (dot_RGB_TO_XYZ (2 * 1) (2 * 2) (2 * 3))).1 =
      (xyz_to_xyy (dot_RGB_TO_XYZ 1 2 3)).1 ∧
    (xyz_to_xyy (dot_RGB_TO_XYZ (2 * 1) (2 * 2) (2 * 3))).2.1 =
      (xyz_to_xyy (dot_RGB_TO_XYZ 1 2 3)).2.1 ∧
    (xyz_to_xyy (dot_RGB_TO_XYZ (2 * 1) (2 * 2) (2 * 3))).2.2 =
      2 * (xyz_to_xyy (dot_RGB_TO_XYZ 1 2 3)).2.2 ∧
    ∀ P : Primaries,
      xyy_to_rgb_mixing_ratio P (xyz_to_xyy (dot_RGB_TO_XYZ (2 * 1) (2 * 2) (2 * 3))) =
        xyy_to_rgb_mixing_ratio P (xyz_to_xyy (dot_RGB_TO_XYZ 1 2 3)) :=
  C8_scale_invariance 1 2 3 2 (by norm_num)

/-- C1: with the documented reference primaries and the D65 white point as
target, the solver's output is proportional to (0.7348, 1.53696, 0.265),
every component within 1e-3 relative tolerance. -/
theorem C1_reference_mixing_ratio :
    ∃ lam : ℝ, 0 < lam ∧
      |(xyy_to_rgb_mixing_ratio referencePrimaries (0.3128, 0.3292, 1)).1 -
          lam * 0.7348| ≤ 0.001 * (lam * 0.7348) ∧
      |(xyy_to_rgb_mixing_ratio referencePrimaries (0.3128, 0.3292, 1)).2.1 -
          lam * 1.53696| ≤ 0.001 * (lam * 1.53696) ∧
      |(xyy_to_rgb_mixing_ratio referencePrimaries (0.3128, 0.3292, 1)).2.2 -
          lam * 0.265| ≤ 0.001 * (lam * 0.265) := by
  refine ⟨200 / 53, by norm_num, ?_, ?_, ?_⟩ <;>
    · rw [abs_le]
      constructor <;>
        norm_num [xyy_to_rgb_mixing_ratio, red_fraction, blue_fraction,
          ratio_pg, ratio_br, purple_y, purple_x, const_gd, slope_gd,
          const_rb, slope_rb, calc_ratio_of_mixtures, referencePrimaries]

/-- C2: decoding 8-bit white (255, 255, 255) and projecting through the
fixed sRGB-to-XYZ matrix yields a chromaticity within 1e-3 of the D65 white
point (0.3128, 0.3292). -/
theorem C2_white_point_chromaticity :
    |(xyz_to_xyy (rgb_to_xyz 255 255 255)).1 - 0.3128| ≤ 0.001 ∧
    |(xyz_to_xyy (rgb_to_xyz 255 255 255)).2.1 - 0.3292| ≤ 0.001 := by
  have hcond : ¬(((255 : ℕ) : ℝ) / MAX_8_BIT ≤ COMPAND_V_MIN) := by
    norm_num [MAX_8_BIT, COMPAND_V_MIN]
  have hbase : (((255 : ℕ) : ℝ) / MAX_8_BIT + COMPAND_B) / COMPAND_C = 1 := by
    norm_num [MAX_8_BIT, COMPAND_B, COMPAND_C]
  have h255 : decode_channel 255 = 100 := by
    simp only [decode_channel, inverse_companding, if_neg hcond, hbase,
      Real.one_rpow, COMPAND_MAGIC_NUM, one_mul]
  constructor <;>
    · rw [abs_le]
      constructor <;>
        norm_num [rgb_to_xyz, h255, dot_RGB_TO_XYZ, xyz_to_xyy]

/-- C4: the chromaticity projection has no zero-sum guard.  The black input
(0, 0, 0) reaches it with tristimulus sum 0 and the division is performed
anyway (in the source, numpy emits NaN without raising; in this embedding,
Lean's total division returns 0): a chromaticity triple is returned and no
degenerate-input error exists anywhere in the code. -/
theorem C4_no_zero_sum_guard :
    rgb_to_xyz 0 0 0 = (0, 0, 0) ∧
    xyz_to_xyy (0, 0, 0) = ((0 : ℝ) / 0, (0 : ℝ) / 0, 0) := by
  have h0 : decode_channel 0 = 0 := by
    norm_num [decode_channel, inverse_companding, MAX_8_BIT, COMPAND_V_MIN,
      COMPAND_A, COMPAND_MAGIC_NUM]
  constructor
  · norm_num [rgb_to_xyz, h0, dot_RGB_TO_XYZ]
  · norm_num [xyz_to_xyy]

/-- C5: the solver has no degenerate-geometry guard.  At a target whose x
equals the green primary's x the slope denominator is exactly 0 and the
arithmetic proceeds unguarded (in the source this raises an untyped Python
`ZeroDivisionError`, no distinct degenerate-geometry error; in this
embedding Lean's total division lets the junk value flow through to an
ordinary return triple). -/
theorem C5_no_degenerate_geometry_guard :
    ledPrimaries.green_x - PRIMARY_GREEN_X = 0 ∧
    xyy_to_rgb_mixing_ratio ledPrimaries (PRIMARY_GREEN_X, 0.33, 1) =
      (-(43040699674240693 : ℝ) / 8798237803876692,
       (34242461870364001 : ℝ) / 8798237803876692, 1) := by
  constructor
  · norm_num [ledPrimaries]
  · refine Prod.ext ?_ (Prod.ext ?_ ?_) <;>
      norm_num [xyy_to_rgb_mixing_ratio, red_fraction, blue_fraction,
        ratio_pg, ratio_br, purple_y, purple_x, const_gd, slope_gd,
        const_rb, slope_rb, calc_ratio_of_mixtures, ledPrimaries,
        PRIMARY_RED_X, PRIMARY_RED_Y, PRIMARY_GREEN_X, PRIMARY_GREEN_Y,
        PRIMARY_BLUE_X, PRIMARY_BLUE_Y, div_zero]

end LedColor

end
